import Mathlib

/-!
Verification of the route-planning and advisory core of the civilian drone
assistance backend.  Shallow embedding of
`src/modules/civilian/civilian_route_planner.py`,
`src/modules/civilian/civilian_ai_advisor.py` and
`src/modules/civilian/filming_tracker.py`.

Modelling conventions:
* Python floats in the geometric planner are modelled as real numbers `ℝ`
  (the trigonometric functions force this); the tracker and advisor perform
  only field-free rational arithmetic and are modelled over `ℚ`, fully
  executable.
* Python `dict.get(k, d)` is modelled by `Option.getD`; a key that may be
  missing becomes an `Option` field.
* Python statements that can raise are modelled with `Except String`; the
  error string names the Python exception.
* `time.time()` is passed in explicitly as a parameter.
-/

/-- A coordinate dictionary `{lat, lon}` in degrees, as consumed by the route
planner (`start_pos`, `subject_positions`, `herd_location`, ...). -/
structure Pos where
  lat : ℝ
  lon : ℝ

/-- `np.radians` : degrees to radians. -/
noncomputable def radOf (x : ℝ) : ℝ := x * Real.pi / 180

/-- `np.degrees` : radians to degrees. -/
noncomputable def degOf (x : ℝ) : ℝ := x * 180 / Real.pi

/-- `np.arctan2 y x` with the IEEE convention used by numpy
(`arctan2 0 0 = 0`, sign split on the quadrant). -/
noncomputable def atan2 (y x : ℝ) : ℝ :=
  if 0 < x then Real.arctan (y / x)
  else if x < 0 then
    (if 0 ≤ y then Real.arctan (y / x) + Real.pi else Real.arctan (y / x) - Real.pi)
  else if 0 < y then Real.pi / 2
  else if y < 0 then -(Real.pi / 2)
  else 0

/-- Python's `%` on floats with a positive modulus: `x - y * floor (x / y)`. -/
noncomputable def rmod (x y : ℝ) : ℝ := x - y * (⌊x / y⌋ : ℝ)

/-- `CivilianRoutePlanner._calculate_heading`: initial great-circle bearing in
degrees, normalized into `[0, 360)` by `(heading + 360) % 360`.  The `y`/`x`
arguments of `atan2` are written inline. -/
noncomputable def calculate_heading (a b : Pos) : ℝ :=
  rmod
    (degOf (atan2
      (Real.sin (radOf (b.lon - a.lon)) * Real.cos (radOf b.lat))
      (Real.cos (radOf a.lat) * Real.sin (radOf b.lat) -
        Real.sin (radOf a.lat) * Real.cos (radOf b.lat) * Real.cos (radOf (b.lon - a.lon))))
      + 360) 360

/-- The haversine intermediate term `a` of
`CivilianRoutePlanner._calculate_total_distance`:
`sin(dlat/2)**2 + cos(lat1)*cos(lat2)*sin(dlon/2)**2`. -/
noncomputable def haversine_a (p q : Pos) : ℝ :=
  Real.sin ((radOf q.lat - radOf p.lat) / 2) ^ 2 +
    Real.cos (radOf p.lat) * Real.cos (radOf q.lat) *
      Real.sin (radOf (q.lon - p.lon) / 2) ^ 2

/-- The spec-mandated form of the intermediate term: "implementers must clamp
the haversine intermediate term to [0,1] before the inverse-trig step".  The
source computes `haversine_a` and performs no such clamp. -/
noncomputable def haversine_a_clamped (p q : Pos) : ℝ :=
  min 1 (max 0 (haversine_a p q))

/-- One segment of `_calculate_total_distance`:
`c = 2 * arctan2(sqrt(a), sqrt(1-a)); distance = R * c` with `R = 6371000`.
The term `a` is used unclamped, exactly as in the source. -/
noncomputable def segment_distance (p q : Pos) : ℝ :=
  6371000 * (2 * atan2 (Real.sqrt (haversine_a p q)) (Real.sqrt (1 - haversine_a p q)))

/-- Waypoint for civilian operations (`CivilianWaypoint` dataclass). -/
structure CivilianWaypoint where
  lat : ℝ
  lon : ℝ
  altitude : ℝ
  heading : ℝ
  speed : ℝ
  description : String
  shot_type : Option String := none
  camera_angle : Option String := none
  duration : Option ℝ := none

/-- `RouteType` enum. -/
inductive RouteType
  | FILMING
  | MUSTERING
  | HUNTING
  | SURVEYING
  | INSPECTION
  | GENERAL
deriving DecidableEq

/-- `RoutePlan` dataclass. -/
structure RoutePlan where
  route_id : String
  route_type : RouteType
  waypoints : List CivilianWaypoint
  total_distance : ℝ
  estimated_duration : ℝ
  safety_score : ℝ
  optimization_tips : List String
  weather_considerations : String
  terrain_notes : List String

/-- `CivilianRoutePlanner._calculate_total_distance`: 0 for fewer than two
waypoints, otherwise the haversine distance summed over consecutive pairs. -/
noncomputable def calculate_total_distance (wps : List CivilianWaypoint) : ℝ :=
  if wps.length < 2 then 0
  else ((wps.zip wps.tail).map
    (fun pr => segment_distance ⟨pr.1.lat, pr.1.lon⟩ ⟨pr.2.lat, pr.2.lon⟩)).sum

/-- An entry of a filming-advice `shot_sequence` (a Python dict with keys
`shot_type`, `description`, `duration`; each may be absent). -/
structure ShotDict where
  shot_type : Option String := none
  description : Option String := none
  duration : Option ℝ := none

/-- Python truthiness of a shot dict: `{}` is falsy, a dict with at least one
(modelled) key is truthy. -/
def ShotDict.isTruthy (s : ShotDict) : Bool :=
  s.shot_type.isSome || s.description.isSome || s.duration.isSome

/-- The `filming_advice` dict parameter of `plan_filming_route`; every key may
be absent (`dict.get` with a default is used throughout the source). -/
structure FilmingAdviceDict where
  recommended_altitude : Option ℝ := none
  recommended_speed : Option ℝ := none
  camera_angles : Option (List String) := none
  shot_sequence : Option (List ShotDict) := none
  framing_tips : Option (List String) := none
  weather_considerations : Option String := none

/-- `filming_advice.get("recommended_altitude", 30.0) if filming_advice else 30.0`. -/
noncomputable def adviceAltitude (advice : Option FilmingAdviceDict) : ℝ :=
  match advice with
  | some a => a.recommended_altitude.getD 30
  | none => 30

/-- `filming_advice.get("recommended_speed", 2.0) if filming_advice else 2.0`. -/
noncomputable def adviceSpeed (advice : Option FilmingAdviceDict) : ℝ :=
  match advice with
  | some a => a.recommended_speed.getD 2
  | none => 2

/-- The starting waypoint of `plan_filming_route`. -/
noncomputable def filmStartWp (advice : Option FilmingAdviceDict) (start_pos : Pos) :
    CivilianWaypoint :=
  { lat := start_pos.lat, lon := start_pos.lon
    altitude := adviceAltitude advice
    heading := 0
    speed := adviceSpeed advice
    description := "Starting position - prepare for filming"
    shot_type := match advice with | some _ => some "establishing" | none => none
    camera_angle := match advice with | some _ => some "overhead" | none => none
    duration := some 5 }

/-- The per-subject approach waypoint of `plan_filming_route`; `prev` is
`waypoints[-1]` at the time the waypoint is appended. -/
noncomputable def approachWp (advice : Option FilmingAdviceDict) (prev : CivilianWaypoint)
    (i : ℕ) (subj : Pos) : CivilianWaypoint :=
  { lat := subj.lat - 0.0001, lon := subj.lon
    altitude := adviceAltitude advice
    heading := calculate_heading ⟨prev.lat, prev.lon⟩ subj
    speed := adviceSpeed advice
    description := "Approach subject " ++ toString (i + 1)
    shot_type := match advice with | some _ => some "approach" | none => none
    camera_angle := match advice with | some _ => some "side" | none => none
    duration := some 3 }

/-- The per-subject filming waypoint of `plan_filming_route`.
`shot_sequence[i % len(shot_sequence)] if shot_sequence else {}` selects the
shot dict; a present-but-empty `camera_angles` list makes
`lst[i % len(lst)]` raise `ZeroDivisionError`, modelled as `Except.error`. -/
noncomputable def filmWp (advice : Option FilmingAdviceDict) (i : ℕ) (subj : Pos) :
    Except String CivilianWaypoint :=
  let shot_seq : List ShotDict :=
    match advice with | some a => a.shot_sequence.getD [] | none => []
  let shot_info : Option ShotDict :=
    if shot_seq.isEmpty then none else some (shot_seq.getD (i % shot_seq.length) {})
  let stype : String :=
    match shot_info with
    | some sd => if sd.isTruthy then sd.shot_type.getD "following" else "following"
    | none => "following"
  let dur : ℝ :=
    match shot_info with
    | some sd => if sd.isTruthy then sd.duration.getD 10 else 10
    | none => 10
  let mkWp : String → CivilianWaypoint := fun cam =>
    { lat := subj.lat, lon := subj.lon
      altitude := adviceAltitude advice
      heading := 0
      speed := adviceSpeed advice
      description := "Film subject " ++ toString (i + 1)
      shot_type := some stype
      camera_angle := some cam
      duration := some dur }
  match advice with
  | none => .ok (mkWp "overhead")
  | some a =>
    let angles := a.camera_angles.getD ["overhead"]
    if angles.isEmpty then .error "ZeroDivisionError: integer modulo by zero"
    else .ok (mkWp (angles.getD (i % angles.length) ""))

/-- The per-subject orbit waypoint of `plan_filming_route` (emitted only when
there are multiple subjects or `operation_type == "advertisement"`). -/
noncomputable def orbitWp (advice : Option FilmingAdviceDict) (i : ℕ) (subj : Pos) :
    CivilianWaypoint :=
  { lat := subj.lat + 0.0001, lon := subj.lon + 0.0001
    altitude := adviceAltitude advice
    heading := calculate_heading subj ⟨subj.lat + 0.0001, subj.lon + 0.0001⟩
    speed := adviceSpeed advice
    description := "Orbit around subject " ++ toString (i + 1)
    shot_type := match advice with | some _ => some "orbit" | none => none
    camera_angle := match advice with | some _ => some "orbit" | none => none
    duration := some 8 }

/-- The waypoints appended for subject number `i` (0-based) inside the
`for i, subject_pos in enumerate(subject_positions)` loop. -/
noncomputable def filmSubjectWps (advice : Option FilmingAdviceDict) (nsubj : ℕ)
    (operation_type : String) (prev : CivilianWaypoint) (i : ℕ) (subj : Pos) :
    Except String (List CivilianWaypoint) :=
  match filmWp advice i subj with
  | .error e => .error e
  | .ok fw =>
    if 1 < nsubj ∨ operation_type = "advertisement" then
      .ok [approachWp advice prev i subj, fw, orbitWp advice i subj]
    else
      .ok [approachWp advice prev i subj, fw]

/-- The subject loop of `plan_filming_route`; `prev` tracks `waypoints[-1]`. -/
noncomputable def filmLoop (advice : Option FilmingAdviceDict) (nsubj : ℕ)
    (operation_type : String) :
    ℕ → CivilianWaypoint → List Pos → Except String (List CivilianWaypoint)
  | _, _, [] => .ok []
  | i, prev, subj :: rest =>
    match filmSubjectWps advice nsubj operation_type prev i subj with
    | .error e => .error e
    | .ok ws =>
      match filmLoop advice nsubj operation_type (i + 1) (ws.getLastD prev) rest with
      | .error e => .error e
      | .ok rest' => .ok (ws ++ rest')

/-- `CivilianRoutePlanner.plan_filming_route` (the `time.time()` seed of the
route id is the parameter `t`). -/
noncomputable def plan_filming_route (t : ℕ) (start_pos : Pos)
    (subject_positions : List Pos) (operation_type : String)
    (filming_advice : Option FilmingAdviceDict) : Except String RoutePlan :=
  let w0 := filmStartWp filming_advice start_pos
  match filmLoop filming_advice subject_positions.length operation_type 0 w0
      subject_positions with
  | .error e => .error e
  | .ok ws =>
    let waypoints := w0 :: ws
    .ok { route_id := "filming_" ++ toString t
          route_type := .FILMING
          waypoints := waypoints
          total_distance := calculate_total_distance waypoints
          estimated_duration := (waypoints.map (fun w => w.duration.getD 10)).sum
          safety_score := 0.9
          optimization_tips :=
            match filming_advice with
            | some a => a.framing_tips.getD []
            | none => ["Maintain smooth camera movements", "Keep subjects in frame",
                "Use rule of thirds for composition"]
          weather_considerations :=
            match filming_advice with
            | some a => a.weather_considerations.getD "Check weather before flight"
            | none => "Check weather conditions"
          terrain_notes := ["Ensure clear line of sight", "Avoid obstacles"] }

/-- `CivilianRoutePlanner.plan_mustering_route`: the five appended waypoints
(wide-arc approach, herd, midpoint, destination approach, destination) exactly
as in the source. `herd_size` and `terrain` are accepted and unused. -/
noncomputable def plan_mustering_route (t : ℕ) (herd_location destination : Pos)
    (_herd_size : Option ℕ) (_terrain : Option Unit) : RoutePlan :=
  let mid_lat := (herd_location.lat + destination.lat) / 2
  let mid_lon := (herd_location.lon + destination.lon) / 2
  let wps : List CivilianWaypoint :=
    [ { lat := herd_location.lat - 0.0002, lon := herd_location.lon - 0.0002
        altitude := 25, heading := calculate_heading herd_location destination
        speed := 3, description := "Approach herd from side - begin gathering" },
      { lat := herd_location.lat, lon := herd_location.lon
        altitude := 25, heading := calculate_heading herd_location destination
        speed := 2, description := "Herd location - maintain safe distance" },
      { lat := mid_lat, lon := mid_lon
        altitude := 30, heading := calculate_heading herd_location destination
        speed := 3, description := "Midpoint - guide herd direction" },
      { lat := destination.lat - 0.0001, lon := destination.lon
        altitude := 25, heading := calculate_heading ⟨mid_lat, mid_lon⟩ destination
        speed := 2, description := "Approach destination - final guidance" },
      { lat := destination.lat, lon := destination.lon
        altitude := 25, heading := 0
        speed := 1, description := "Destination - herd arrival point" } ]
  { route_id := "mustering_" ++ toString t
    route_type := .MUSTERING
    waypoints := wps
    total_distance := calculate_total_distance wps
    estimated_duration := calculate_total_distance wps / 3
    safety_score := 0.85
    optimization_tips := ["Use wide arcs to avoid stressing animals",
      "Maintain consistent altitude (20-30m)", "Work with ground crew if available",
      "Monitor animal behavior and adjust approach"]
    weather_considerations :=
      "Early morning or late afternoon when animals are most active. Avoid extreme heat."
    terrain_notes := ["Avoid obstacles (fences, water, steep slopes)",
      "Use natural terrain features to guide movement",
      "Plan route to minimize animal stress"] }

/-- `CivilianRoutePlanner.plan_hunting_route`. -/
noncomputable def plan_hunting_route (t : ℕ) (start_pos target_location : Pos)
    (animal_type : String) (_terrain : Option Unit) (wind_direction : Option ℝ) :
    RoutePlan :=
  let approach : Pos :=
    match wind_direction with
    | some wd =>
      ⟨target_location.lat + 0.0002 * Real.cos (radOf (wd + 180)),
        target_location.lon + 0.0002 * Real.sin (radOf (wd + 180))⟩
    | none => ⟨target_location.lat - 0.0002, target_location.lon⟩
  let wps : List CivilianWaypoint :=
    [ { lat := start_pos.lat, lon := start_pos.lon, altitude := 50, heading := 0
        speed := 4, description := "Starting position - begin scouting" },
      { lat := approach.lat, lon := approach.lon, altitude := 40
        heading := calculate_heading start_pos target_location
        speed := 3, description := "Approach point - downwind side for stealth" },
      { lat := target_location.lat, lon := target_location.lon, altitude := 35
        heading := 0, speed := 1
        description := "Target location - observe " ++ animal_type } ]
  { route_id := "hunting_" ++ toString t
    route_type := .HUNTING
    waypoints := wps
    total_distance := calculate_total_distance wps
    estimated_duration := calculate_total_distance wps / 3
    safety_score := 0.8
    optimization_tips := ["Approach from downwind to avoid detection",
      "Use terrain for cover when possible", "Maintain legal altitude limits",
      "Plan escape routes", "Monitor wind direction and adjust approach"]
    weather_considerations :=
      "Early morning or late afternoon when animals are most active. Consider wind direction for approach."
    terrain_notes := ["Use terrain features (ridges, valleys) for cover",
      "Avoid open areas when possible",
      "Plan approach to minimize noise and visual disturbance"] }

/-- The attributes `CivilianRoutePlanner.__init__` assigns from the planning
config.  Note: `approach_speed` is *not* among them, although
`plan_general_route` reads `self.approach_speed`. -/
structure CivilianRoutePlanner where
  max_altitude : ℝ := 120
  min_altitude : ℝ := 5
  cruise_speed : ℝ := 5
  filming_speed : ℝ := 2

/-- The intermediate-waypoint loop of `plan_general_route`
(`for i in range(1, waypoint_count)`); `prev` tracks `waypoints[-1]`. -/
noncomputable def generalLoop (start_pos end_pos : Pos) (cruise : ℝ)
    (waypoint_count : ℕ) : List ℕ → CivilianWaypoint → List CivilianWaypoint
  | [], _ => []
  | i :: rest, prev =>
    let tf : ℝ := (i : ℝ) / (waypoint_count : ℝ)
    let wp : CivilianWaypoint :=
      { lat := start_pos.lat + tf * (end_pos.lat - start_pos.lat)
        lon := start_pos.lon + tf * (end_pos.lon - start_pos.lon)
        altitude := 50, heading := calculate_heading ⟨prev.lat, prev.lon⟩ end_pos
        speed := cruise, description := "Waypoint " ++ toString i }
    wp :: generalLoop start_pos end_pos cruise waypoint_count rest wp

/-- `CivilianRoutePlanner.plan_general_route`.  After the starting and
intermediate waypoints, the end waypoint is built with
`speed=self.approach_speed` — an attribute `__init__` never assigns, so every
call raises `AttributeError`, modelled as `Except.error`. -/
noncomputable def plan_general_route (p : CivilianRoutePlanner) (_t : ℕ)
    (start_pos end_pos : Pos) (waypoint_count : ℕ) : Except String RoutePlan :=
  let w0 : CivilianWaypoint :=
    { lat := start_pos.lat, lon := start_pos.lon, altitude := 50, heading := 0
      speed := p.cruise_speed, description := "Starting position" }
  let _mids := generalLoop start_pos end_pos p.cruise_speed waypoint_count
    (List.range' 1 (waypoint_count - 1)) w0
  .error "AttributeError: 'CivilianRoutePlanner' object has no attribute 'approach_speed'"

/-- Opaque structured-document inputs (`location`, `subject_info`, `weather`)
that are only forwarded into the reasoning-service prompt and never influence
the deterministic results. -/
abbrev ContextDict := List (String × String)

/-- `OperationType` enum of `civilian_ai_advisor.py`. -/
inductive OperationType
  | FILMING_WEDDING
  | FILMING_ADVERTISEMENT
  | FILMING_EVENT
  | MUSTERING
  | HUNTING
  | SURVEYING
  | INSPECTION
  | SEARCH_RESCUE
deriving DecidableEq

/-- `FilmingAdvice` dataclass of `civilian_ai_advisor.py` (distinct from the
tracker's dataclass of the same name): every field is always populated. -/
structure AdvisorFilmingAdvice where
  recommended_altitude : ℝ
  recommended_speed : ℝ
  camera_angles : List String
  shot_sequence : List ShotDict
  lighting_advice : String
  weather_considerations : String
  framing_tips : List String
  tracking_strategy : String

/-- The JSON object parsed by `_get_filming_advice_from_ai`; every key may be
absent and is then substituted via `dict.get` defaults. -/
structure AdviceJson where
  recommended_altitude : Option ℝ := none
  recommended_speed : Option ℝ := none
  camera_angles : Option (List String) := none
  shot_sequence : Option (List ShotDict) := none
  lighting_advice : Option String := none
  weather_considerations : Option String := none
  framing_tips : Option (List String) := none
  tracking_strategy : Option String := none

/-- Outcome of `claude_integration.generate_expert_advice` followed by
`json.loads` inside `_get_filming_advice_from_ai`:
the call raises (caught by the outer `except Exception`), the text is not
valid JSON (`json.JSONDecodeError`, caught by the inner handler), the text is
valid JSON but not an object (`.get` raises `AttributeError`, caught by the
outer handler), or a parsed advice object. -/
inductive IntegrationOutcome
  | raises
  | unparsable
  | parsedNonObject
  | parsed (j : AdviceJson)

/-- `CivilianAIAdvisor._get_filming_advice_default`: deterministic defaults by
operation type (wedding / advertisement / everything else). -/
noncomputable def get_filming_advice_default (operation_type : OperationType)
    (_location : ContextDict) (_subject_info _weather : Option ContextDict) :
    AdvisorFilmingAdvice :=
  match operation_type with
  | .FILMING_WEDDING =>
    { recommended_altitude := 25
      recommended_speed := 2
      camera_angles := ["overhead", "side", "follow", "reveal"]
      shot_sequence :=
        [ { shot_type := some "establishing", description := some "Wide shot of venue",
            duration := some 5 },
          { shot_type := some "following", description := some "Follow couple walking",
            duration := some 10 },
          { shot_type := some "overhead", description := some "Aerial view of ceremony",
            duration := some 15 },
          { shot_type := some "reveal", description := some "Reveal shot of venue",
            duration := some 8 } ]
      lighting_advice :=
        "Golden hour (sunrise/sunset) provides best lighting. Avoid harsh midday sun."
      weather_considerations :=
        "Clear skies preferred. Wind speeds should be below 10 m/s for stable footage."
      framing_tips := ["Keep couple centered in frame", "Use rule of thirds for composition",
        "Maintain smooth, gradual movements", "Capture both wide and close-up shots"]
      tracking_strategy :=
        "Use smooth follow mode with gradual altitude changes. Maintain consistent distance from subjects." }
  | .FILMING_ADVERTISEMENT =>
    { recommended_altitude := 40
      recommended_speed := 4
      camera_angles := ["overhead", "orbit", "dolly", "crane"]
      shot_sequence :=
        [ { shot_type := some "establishing", description := some "Wide establishing shot",
            duration := some 3 },
          { shot_type := some "orbit", description := some "Orbit around subject",
            duration := some 8 },
          { shot_type := some "dolly", description := some "Forward tracking shot",
            duration := some 5 },
          { shot_type := some "reveal", description := some "Dramatic reveal",
            duration := some 4 } ]
      lighting_advice :=
        "Professional lighting setup recommended. Consider time of day for natural lighting."
      weather_considerations :=
        "Controlled environment preferred. Check for wind and precipitation."
      framing_tips := ["Dynamic camera movements", "Multiple angles for variety",
        "Smooth transitions between shots", "Focus on product/subject"]
      tracking_strategy :=
        "Precise tracking with multiple waypoints. Use orbit and dolly movements for dynamic shots." }
  | _ =>
    { recommended_altitude := 30
      recommended_speed := 3
      camera_angles := ["overhead", "side", "follow"]
      shot_sequence := []
      lighting_advice := "Use natural lighting when possible"
      weather_considerations := "Check weather conditions before flight"
      framing_tips := ["Keep subject centered", "Use rule of thirds"]
      tracking_strategy := "Smooth tracking with gradual movements" }

/-- `CivilianAIAdvisor._get_filming_advice_from_ai`: on a parsed JSON object,
fill each missing key from its per-field default; on any failure outcome fall
back to `_get_filming_advice_default`. -/
noncomputable def get_filming_advice_from_ai (outcome : IntegrationOutcome)
    (operation_type : OperationType) (location : ContextDict)
    (subject_info weather : Option ContextDict) : AdvisorFilmingAdvice :=
  match outcome with
  | .parsed j =>
    { recommended_altitude := j.recommended_altitude.getD 30
      recommended_speed := j.recommended_speed.getD 3
      camera_angles := j.camera_angles.getD ["overhead", "side", "follow"]
      shot_sequence := j.shot_sequence.getD []
      lighting_advice := j.lighting_advice.getD "Use natural lighting when possible"
      weather_considerations :=
        j.weather_considerations.getD "Check weather conditions before flight"
      framing_tips := j.framing_tips.getD ["Keep subject centered", "Use rule of thirds"]
      tracking_strategy := j.tracking_strategy.getD "Smooth tracking with gradual movements" }
  | _ => get_filming_advice_default operation_type location subject_info weather

/-- `CivilianAIAdvisor.get_filming_advice`: dispatch on whether a
reasoning-service capability (`claude_integration`) is configured. -/
noncomputable def get_filming_advice (claude_integration : Option IntegrationOutcome)
    (operation_type : OperationType) (location : ContextDict)
    (subject_info weather : Option ContextDict) : AdvisorFilmingAdvice :=
  match claude_integration with
  | some outcome =>
    get_filming_advice_from_ai outcome operation_type location subject_info weather
  | none => get_filming_advice_default operation_type location subject_info weather

/-- A `{lat, lon, alt}` position dict of the tracker (defaults 0). -/
structure Pos3 where
  lat : ℚ := 0
  lon : ℚ := 0
  alt : ℚ := 0
deriving DecidableEq

/-- `TrackedSubject` dataclass of `filming_tracker.py`. -/
structure TrackedSubject where
  subject_id : String
  position : Pos3
  bbox : List ℚ
  confidence : ℚ
  frame_number : ℕ
  timestamp : ℚ
  camera_angle : String
  framing_quality : ℚ
  tracking_status : String
deriving DecidableEq

/-- Placeholder used for (never-taken) out-of-range heap reads. -/
def defaultSubject : TrackedSubject :=
  { subject_id := "", position := {}, bbox := [], confidence := 0, frame_number := 0,
    timestamp := 0, camera_angle := "", framing_quality := 0, tracking_status := "" }

/-- `FilmingAdvice` dataclass of `filming_tracker.py` (real-time messages). -/
structure TrackerFilmingAdvice where
  advice_type : String
  message : String
  priority : String
  timestamp : ℚ
deriving DecidableEq

/-- One detection dict (keys `subject_id`, `bbox`, `confidence`, each read
with `dict.get`). -/
structure Detection where
  subject_id : Option String := none
  bbox : Option (List ℚ) := none
  confidence : Option ℚ := none
deriving DecidableEq

/-- The mutable state of a `FilmingTracker` instance.  Python objects are
aliased (the same `TrackedSubject` object sits in the live dict and in
`tracking_history`), so subjects live in an object heap `arena` and the live
dict and the history store arena indices. -/
structure FilmingTracker where
  tracked_subjects : List (String × ℕ)
  tracking_history : List ℕ
  advice_history : List TrackerFilmingAdvice
  running : Bool
  arena : List TrackedSubject
  max_tracking_distance : ℚ := 50
  framing_threshold : ℚ := 0.7
  lost_timeout : ℚ := 2
  ai_advisor : Option (Option String) := none
deriving DecidableEq

/-- `FilmingTracker._calculate_framing_quality`.  A bbox with fewer than four
entries yields `0.5`; with more than four, `x1, y1, x2, y2 = bbox` raises
`ValueError`.  Otherwise the weighted blend, clamped into `[0, 1]`. -/
def calculate_framing_quality (d : Detection) : Except String ℚ :=
  let bbox := d.bbox.getD [0, 0, 0, 0]
  if bbox.length < 4 then .ok 0.5
  else match bbox with
    | [x1, y1, x2, y2] =>
      let center_x := (x1 + x2) / 2
      let _center_y := (y1 + y2) / 2
      let width := x2 - x1
      let height := y2 - y1
      let frame_width : ℚ := 1920
      let frame_height : ℚ := 1080
      let center_score := max 0 (1 - |center_x - frame_width / 2| / (frame_width / 2))
      let size_ratio := (width * height) / (frame_width * frame_height)
      let size_score : ℚ :=
        if 0.1 < size_ratio ∧ size_ratio < 0.5 then 1
        else if size_ratio < 0.05 then 0.3
        else if size_ratio > 0.7 then 0.5
        else 0.7
      let confidence := d.confidence.getD 0.5
      .ok (min 1 (max 0 (center_score * 0.4 + size_score * 0.4 + confidence * 0.2)))
    | _ => .error "ValueError: too many values to unpack (expected 4)"

/-- `FilmingTracker._determine_camera_angle`. -/
def determine_camera_angle (d : Detection) (camera_position : Option Pos3) : String :=
  match camera_position with
  | none => "unknown"
  | some _ =>
    let bbox := d.bbox.getD [0, 0, 0, 0]
    if bbox.length < 4 then "unknown"
    else
      let y1 := bbox.getD 1 0
      let frame_height : ℚ := 1080
      if y1 < frame_height * 0.3 then "overhead"
      else if y1 < frame_height * 0.6 then "side"
      else "low_angle"

/-- `detection.get("subject_id") or f"subject_{len(self.tracked_subjects)}"`
(Python `or`: `None` and the empty string are falsy). -/
def resolveSubjectId (d : Detection) (tracked_subjects : List (String × ℕ)) : String :=
  match d.subject_id with
  | some s => if s = "" then "subject_" ++ toString tracked_subjects.length else s
  | none => "subject_" ++ toString tracked_subjects.length

/-- The body of the `for detection in detections` loop of `update_tracking`:
update or create the tracked subject and append it (its arena index) to
`updated_subjects` and `tracking_history`. -/
def detStep (t : ℚ) (frame_number : ℕ) (camera_position : Option Pos3)
    (s : FilmingTracker) (d : Detection) : Except String (FilmingTracker × ℕ) :=
  let sid := resolveSubjectId d s.tracked_subjects
  match calculate_framing_quality d with
  | .error e => .error e
  | .ok q =>
    let angle := determine_camera_angle d camera_position
    match s.tracked_subjects.lookup sid with
    | some idx =>
      let old := s.arena.getD idx defaultSubject
      let upd : TrackedSubject :=
        { old with
          bbox := d.bbox.getD old.bbox
          confidence := d.confidence.getD old.confidence
          frame_number := frame_number
          timestamp := t
          camera_angle := angle
          framing_quality := q
          tracking_status := "tracking"
          position := (match camera_position with | some cp => cp | none => old.position) }
      .ok ({ s with
              arena := s.arena.set idx upd
              tracking_history := s.tracking_history ++ [idx] }, idx)
    | none =>
      let idx := s.arena.length
      let fresh : TrackedSubject :=
        { subject_id := sid
          position := camera_position.getD {}
          bbox := d.bbox.getD [0, 0, 0, 0]
          confidence := d.confidence.getD 0
          frame_number := frame_number
          timestamp := t
          camera_angle := angle
          framing_quality := q
          tracking_status := "tracking" }
      .ok ({ s with
              arena := s.arena ++ [fresh]
              tracked_subjects := s.tracked_subjects ++ [(sid, idx)]
              tracking_history := s.tracking_history ++ [idx] }, idx)

/-- The whole detection loop, threading the state and accumulating the
`updated_subjects` arena indices in order. -/
def runDetections (t : ℚ) (frame_number : ℕ) (camera_position : Option Pos3) :
    List Detection → FilmingTracker → List ℕ →
    Except String (FilmingTracker × List ℕ)
  | [], s, upd => .ok (s, upd)
  | d :: rest, s, upd =>
    match detStep t frame_number camera_position s d with
    | .error e => .error e
    | .ok (s', idx) => runDetections t frame_number camera_position rest s' (upd ++ [idx])

/-- One iteration of the lost-track check (`for subject_id, tracked in
list(self.tracked_subjects.items())`): if the timeout elapsed, mark the object
`lost` and delete its key from the live dict. -/
def lostStep (t lost_timeout : ℚ) (acc : List TrackedSubject × List (String × ℕ))
    (p : String × ℕ) : List TrackedSubject × List (String × ℕ) :=
  let tr := acc.1.getD p.2 defaultSubject
  if lost_timeout < t - tr.timestamp then
    (acc.1.set p.2 { tr with tracking_status := "lost" },
      acc.2.filter (fun q => q.1 != p.1))
  else acc

/-- The lost-track sweep of `update_tracking`, iterating over a snapshot of
the live dict taken after the detection loop. -/
def lostSweep (t : ℚ) (s : FilmingTracker) : FilmingTracker :=
  let r := s.tracked_subjects.foldl (lostStep t s.lost_timeout) (s.arena, s.tracked_subjects)
  { s with arena := r.1, tracked_subjects := r.2 }

/-- The advice generated for one tracked subject by
`FilmingTracker._generate_tracking_advice` (framing, movement, composition in
source order).  `ai_advisor = some (some txt)` models `get_general_advice`
returning `txt`; `some none` models it raising (caught and logged); Python's
2-decimal formatting of the quality is modelled by exact rational rendering. -/
def genAdviceFor (framing_threshold : ℚ) (ai_advisor : Option (Option String))
    (t : ℚ) (tr : TrackedSubject) : List TrackerFilmingAdvice :=
  (if tr.framing_quality < framing_threshold then
    [{ advice_type := "framing"
       message := "Subject " ++ tr.subject_id ++ " framing quality low (" ++
         toString tr.framing_quality ++ "). Adjust camera position to center subject."
       priority := "medium", timestamp := t }]
   else []) ++
  (if tr.tracking_status = "lost" then
    [{ advice_type := "movement"
       message := "Subject " ++ tr.subject_id ++ " lost. Attempting to reacquire..."
       priority := "high", timestamp := t }]
   else []) ++
  (match ai_advisor with
   | none => []
   | some behavior =>
     if tr.framing_quality < 0.6 then
       match behavior with
       | some txt =>
         [{ advice_type := "composition"
            message := txt.take 200
            priority := "low", timestamp := t }]
       | none => []
     else [])

/-- `FilmingTracker._generate_tracking_advice` over the updated subjects. -/
def generate_tracking_advice (s : FilmingTracker) (subs : List TrackedSubject)
    (t : ℚ) : List TrackerFilmingAdvice :=
  (subs.map (genAdviceFor s.framing_threshold s.ai_advisor t)).flatten

/-- `FilmingTracker.update_tracking`.  Returns the `updated_subjects` list (as
the objects read back from the heap at return time) and the new state. -/
def update_tracking (t : ℚ) (frame_number : ℕ) (camera_position : Option Pos3)
    (detections : List Detection) (s : FilmingTracker) :
    Except String (List TrackedSubject × FilmingTracker) :=
  if s.running = false then .ok ([], s)
  else
    match runDetections t frame_number camera_position detections s [] with
    | .error e => .error e
    | .ok (s1, upd) =>
      let s2 := lostSweep t s1
      let s3 :=
        if upd.isEmpty then s2
        else
          let advice :=
            generate_tracking_advice s2 (upd.map (fun i => s2.arena.getD i defaultSubject)) t
          if advice.isEmpty then s2
          else { s2 with advice_history := s2.advice_history ++ advice }
      .ok (upd.map (fun i => s3.arena.getD i defaultSubject), s3)

/-- Placeholder route used only to extract the payload of an `Except.ok` in
closed witness statements. -/
noncomputable def dummyRoute : RoutePlan :=
  { route_id := "", route_type := .GENERAL, waypoints := [], total_distance := 0,
    estimated_duration := 0, safety_score := 0, optimization_tips := [],
    weather_considerations := "", terrain_notes := [] }

/-- A tracked subject last matched at time 0 (used as a concrete fixture). -/
def fixtureSubject : TrackedSubject :=
  { subject_id := "A", position := {}, bbox := [0, 0, 0, 0], confidence := 0.9,
    frame_number := 0, timestamp := 0, camera_angle := "unknown",
    framing_quality := 0.8, tracking_status := "tracking" }

/-- A running tracker holding `fixtureSubject` live (default `lost_timeout = 2`,
no reasoning-service capability). -/
def fixtureTracker : FilmingTracker :=
  { tracked_subjects := [("A", 0)], tracking_history := [0], advice_history := [],
    running := true, arena := [fixtureSubject] }

/-- A stopped tracker with one live subject (fixture for the no-op claim). -/
def stoppedTracker : FilmingTracker :=
  { tracked_subjects := [("A", 0)], tracking_history := [0], advice_history := [],
    running := false, arena := [fixtureSubject] }

deriving instance DecidableEq for Except

/-- The state `fixtureTracker` reaches after `update_tracking(detections=[])`
at time 10: the subject was marked lost and evicted, and nothing else moved. -/
def fixtureTrackerAfterLost : FilmingTracker :=
  { fixtureTracker with
    arena := [{ fixtureSubject with tracking_status := "lost" }]
    tracked_subjects := [] }

/-- Concrete filming plan: one subject, `operation_type = "wedding"`, no
advice. -/
noncomputable def c6PlanOne : RoutePlan :=
  (plan_filming_route 0 ⟨0, 0⟩ [⟨0, 0⟩] "wedding" none).toOption.getD dummyRoute

/-- Concrete filming plan: two subjects, `operation_type = "wedding"`, no
advice. -/
noncomputable def c6PlanTwo : RoutePlan :=
  (plan_filming_route 0 ⟨0, 0⟩ [⟨0, 0⟩, ⟨1, 1⟩] "wedding" none).toOption.getD dummyRoute

/-- A well-formed detection: centered bbox of area fraction 0.3, confidence 1. -/
def c9Detection : Detection :=
  { subject_id := some "B", bbox := some [0, 0, 1920, 324], confidence := some 1 }

/-- The subject created for `c9Detection` at time 1, frame 0, no camera
position: framing quality `1*0.4 + 1*0.4 + 1*0.2 = 1`. -/
def c9Subject : TrackedSubject :=
  { subject_id := "B", position := {}, bbox := [0, 0, 1920, 324], confidence := 1,
    frame_number := 0, timestamp := 1, camera_angle := "unknown",
    framing_quality := 1, tracking_status := "tracking" }

/-- The state `fixtureTracker` reaches after tracking `c9Detection` at t = 1. -/
def c9StateAfter : FilmingTracker :=
  { fixtureTracker with
    arena := [fixtureSubject, c9Subject]
    tracked_subjects := [("A", 0), ("B", 1)]
    tracking_history := [0, 1] }

/-- Placeholder waypoint used only as the `getLastD` default in statements
about routes whose waypoint list is provably non-empty. -/
noncomputable def dummyWp : CivilianWaypoint :=
  { lat := 0, lon := 0, altitude := 0, heading := 0, speed := 0, description := "" }

/-- Half-angle identity in the form used by the haversine term. -/
theorem sin_half_sq (t : ℝ) : Real.sin (t / 2) ^ 2 = 1 / 2 - Real.cos t / 2 := by
  have h2 : 2 * (t / 2) = t := by ring
  rw [Real.sin_sq_eq_half_sub, h2]

/-- The raw haversine term `sin((y-x)/2)^2 + cos x * cos y * sin(z/2)^2` lies in
`[0, 1]` for all real angles, without any clamping. -/
theorem havTerm_bounds (x y z : ℝ) :
    0 ≤ Real.sin ((y - x) / 2) ^ 2 + Real.cos x * Real.cos y * Real.sin (z / 2) ^ 2 ∧
    Real.sin ((y - x) / 2) ^ 2 + Real.cos x * Real.cos y * Real.sin (z / 2) ^ 2 ≤ 1 := by
  have e1 := sin_half_sq (y - x)
  have e2 := sin_half_sq z
  have ecos : Real.cos (y - x) = Real.cos y * Real.cos x + Real.sin y * Real.sin x :=
    Real.cos_sub y x
  have p1 : Real.sin x ^ 2 + Real.cos x ^ 2 = 1 := Real.sin_sq_add_cos_sq x
  have p2 : Real.sin y ^ 2 + Real.cos y ^ 2 = 1 := Real.sin_sq_add_cos_sq y
  have hz1 : Real.cos z ≤ 1 := Real.cos_le_one z
  have hz2 : -1 ≤ Real.cos z := Real.neg_one_le_cos z
  rw [e1, e2, ecos]
  constructor
  · nlinarith [sq_nonneg (Real.sin x - Real.sin y),
      mul_nonneg (sq_nonneg (Real.cos x - Real.cos y)) (by linarith : (0:ℝ) ≤ 1 + Real.cos z),
      mul_nonneg (sq_nonneg (Real.cos x + Real.cos y)) (by linarith : (0:ℝ) ≤ 1 - Real.cos z)]
  · nlinarith [sq_nonneg (Real.sin x + Real.sin y),
      mul_nonneg (sq_nonneg (Real.cos x - Real.cos y)) (by linarith : (0:ℝ) ≤ 1 - Real.cos z),
      mul_nonneg (sq_nonneg (Real.cos x + Real.cos y)) (by linarith : (0:ℝ) ≤ 1 + Real.cos z)]

/-- `haversine_a` always lies in `[0, 1]`. -/
theorem haversine_a_bounds (p q : Pos) :
    0 ≤ haversine_a p q ∧ haversine_a p q ≤ 1 := by
  unfold haversine_a
  exact havTerm_bounds (radOf p.lat) (radOf q.lat) (radOf (q.lon - p.lon))

/-- `atan2` of two non-negative arguments is non-negative. -/
theorem atan2_nonneg {y x : ℝ} (hy : 0 ≤ y) (hx : 0 ≤ x) : 0 ≤ atan2 y x := by
  unfold atan2
  split_ifs with h1 h2 h3 h4
  all_goals try exact le_refl 0
  all_goals try { rw [← Real.arctan_zero]
                  exact Real.arctan_strictMono.monotone (div_nonneg hy (le_of_lt h1)) }
  all_goals have := Real.pi_pos
  all_goals linarith

theorem atan2_zero_one : atan2 0 1 = 0 := by
  norm_num [atan2, Real.arctan_zero]

theorem atan2_zero_zero : atan2 0 0 = 0 := by
  norm_num [atan2]

/-- `rmod x 360` as a scaled fractional part. -/
theorem rmod_360_eq (x : ℝ) : rmod x 360 = 360 * Int.fract (x / 360) := by
  unfold rmod
  rw [Int.fract]
  ring

theorem rmod_360_nonneg (x : ℝ) : 0 ≤ rmod x 360 := by
  rw [rmod_360_eq]
  have := Int.fract_nonneg (x / 360)
  linarith

theorem rmod_360_lt (x : ℝ) : rmod x 360 < 360 := by
  rw [rmod_360_eq]
  have := Int.fract_lt_one (x / 360)
  linarith

/-- The haversine term is symmetric in its two endpoints. -/
theorem haversine_a_comm (p q : Pos) : haversine_a p q = haversine_a q p := by
  unfold haversine_a
  have h1 : (radOf p.lat - radOf q.lat) / 2 = -((radOf q.lat - radOf p.lat) / 2) := by
    ring
  have h2 : radOf (p.lon - q.lon) / 2 = -(radOf (q.lon - p.lon) / 2) := by
    unfold radOf
    ring
  rw [h1, h2, Real.sin_neg, Real.sin_neg, neg_sq, neg_sq]
  ring

/-- The haversine term vanishes on coincident endpoints. -/
theorem haversine_a_self (p : Pos) : haversine_a p p = 0 := by
  unfold haversine_a
  have h1 : (radOf p.lat - radOf p.lat) / 2 = 0 := by ring
  have h2 : radOf (p.lon - p.lon) / 2 = 0 := by
    unfold radOf
    ring
  rw [h1, h2, Real.sin_zero]
  ring

/-- The per-segment distance of two coincident points is 0. -/
theorem segment_distance_self (p : Pos) : segment_distance p p = 0 := by
  unfold segment_distance
  rw [haversine_a_self]
  norm_num [Real.sqrt_zero, Real.sqrt_one, atan2_zero_one]

/-- The bearing of a point to itself evaluates to 0. -/
theorem calculate_heading_self (p : Pos) : calculate_heading p p = 0 := by
  unfold calculate_heading
  have e0 : p.lon - p.lon = 0 := sub_self _
  rw [e0]
  have e2 : radOf 0 = 0 := by
    unfold radOf
    ring
  rw [e2, Real.sin_zero, Real.cos_zero, zero_mul, mul_one]
  have e3 : Real.cos (radOf p.lat) * Real.sin (radOf p.lat) -
      Real.sin (radOf p.lat) * Real.cos (radOf p.lat) = 0 := by ring
  rw [e3, atan2_zero_zero]
  have e4 : degOf 0 = 0 := by
    unfold degOf
    ring
  rw [e4, zero_add]
  unfold rmod
  have e5 : ((360 : ℝ) / 360) = 1 := by norm_num
  rw [e5, Int.floor_one]
  norm_num

/-- C7 (code-bug evidence): `_calculate_total_distance` feeds the haversine
intermediate term to `sqrt(a)` and `sqrt(1-a)` without the clamp to `[0,1]`
that the specification mandates before the inverse-trigonometric step
(`haversine_a` is the unclamped term of the source, `haversine_a_clamped` the
mandated form).  Over exact real arithmetic the two coincide: the term
provably lies in `[0,1]` for every pair of points, so the omitted clamp is the
identity and the per-segment distance is a defined non-negative real.  The
omission is therefore invisible in this idealised semantics and bites only in
the code's floating-point arithmetic, where rounding can push the term above 1
at nearly-antipodal points and `sqrt(1-a)` becomes NaN. -/
theorem C7_clamp_omitted_noop_in_exact_arithmetic (p q : Pos) :
    haversine_a_clamped p q = haversine_a p q ∧
      0 ≤ haversine_a p q ∧ haversine_a p q ≤ 1 ∧
      0 ≤ segment_distance p q := by
  obtain ⟨h0, h1⟩ := haversine_a_bounds p q
  refine ⟨?_, h0, h1, ?_⟩
  · unfold haversine_a_clamped
    rw [max_eq_right h0, min_eq_right h1]
  · unfold segment_distance
    have ha := atan2_nonneg (Real.sqrt_nonneg (haversine_a p q))
      (Real.sqrt_nonneg (1 - haversine_a p q))
    have h2 : (0:ℝ) ≤ 2 * atan2 (Real.sqrt (haversine_a p q))
        (Real.sqrt (1 - haversine_a p q)) := by linarith
    nlinarith

/-- C8: the great-circle segment distance is symmetric and vanishes on equal
points, the route length of zero or one waypoints is 0, and the bearing of a
point to itself is the defined value 0 while every bearing lies in `[0, 360)`. -/
theorem C8_geodesy_algebraic_relations (a b : Pos) (w : CivilianWaypoint) :
    segment_distance a b = segment_distance b a ∧
    segment_distance a a = 0 ∧
    calculate_total_distance [] = 0 ∧
    calculate_total_distance [w] = 0 ∧
    calculate_heading a a = 0 ∧
    0 ≤ calculate_heading a b ∧ calculate_heading a b < 360 := by
  refine ⟨?_, segment_distance_self a, ?_, ?_, calculate_heading_self a, ?_, ?_⟩
  · unfold segment_distance
    rw [haversine_a_comm]
  · simp [calculate_total_distance]
  · simp [calculate_total_distance]
  · unfold calculate_heading
    exact rmod_360_nonneg _
  · unfold calculate_heading
    exact rmod_360_lt _

/-- C2 counterexample: at the spec's own example input the mustering route has
5 waypoints, not 6 — the source appends exactly five (wide-arc approach, herd,
midpoint, destination approach, destination). -/
theorem C2_counterexample_five_waypoints :
    (plan_mustering_route 0 ⟨0, 0⟩ ⟨0, 1/100⟩ (some 50) none).waypoints.length = 5 ∧
    (plan_mustering_route 0 ⟨0, 0⟩ ⟨0, 1/100⟩ (some 50) none).waypoints.length ≠ 6 := by
  constructor <;> simp [plan_mustering_route]

/-- C2 amended: for every pair of inputs `plan_mustering_route` returns a
route of exactly 5 waypoints whose final waypoint's position equals the
destination argument and whose final waypoint's speed is the route's strict
minimum of 1.0 m/s. -/
theorem C2_amended_mustering_route (t : ℕ) (herd destination : Pos)
    (hs : Option ℕ) (terr : Option Unit) :
    (plan_mustering_route t herd destination hs terr).waypoints.length = 5 ∧
    ((plan_mustering_route t herd destination hs terr).waypoints.getLastD dummyWp).lat =
      destination.lat ∧
    ((plan_mustering_route t herd destination hs terr).waypoints.getLastD dummyWp).lon =
      destination.lon ∧
    ((plan_mustering_route t herd destination hs terr).waypoints.getLastD dummyWp).speed = 1 ∧
    (plan_mustering_route t herd destination hs terr).waypoints.dropLast.Forall
      (fun w => 1 < w.speed) := by
  refine ⟨?_, ?_, ?_, ?_, ?_⟩ <;>
    simp [plan_mustering_route, List.getLastD, List.dropLast, List.Forall]

/-- C3: the claim that `plan_general_route` never raises is wrong on the
code: the end waypoint reads `self.approach_speed`, which `__init__` never
assigns, so every call — whatever the planner configuration, endpoints and
waypoint count — raises `AttributeError` instead of returning a Route. -/
theorem C3_plan_general_route_always_raises (p : CivilianRoutePlanner) (t : ℕ)
    (start_pos end_pos : Pos) (waypoint_count : ℕ) :
    plan_general_route p t start_pos end_pos waypoint_count =
      .error "AttributeError: 'CivilianRoutePlanner' object has no attribute 'approach_speed'" :=
  rfl

/-- C1: for `FILMING_WEDDING`, both with no reasoning-service capability and
with a capability whose text cannot be parsed, `get_filming_advice` returns
(without any propagated failure) the same deterministic wedding default:
altitude 25.0, speed 2.0 and a 4-entry shot sequence. -/
theorem C1_wedding_default_fallback (location : ContextDict)
    (subject_info weather : Option ContextDict) :
    get_filming_advice none .FILMING_WEDDING location subject_info weather =
      get_filming_advice_default .FILMING_WEDDING location subject_info weather ∧
    get_filming_advice (some .unparsable) .FILMING_WEDDING location subject_info weather =
      get_filming_advice_default .FILMING_WEDDING location subject_info weather ∧
    (get_filming_advice_default .FILMING_WEDDING location subject_info
        weather).recommended_altitude = 25 ∧
    (get_filming_advice_default .FILMING_WEDDING location subject_info
        weather).recommended_speed = 2 ∧
    (get_filming_advice_default .FILMING_WEDDING location subject_info
        weather).shot_sequence.length = 4 :=
  ⟨rfl, rfl, rfl, rfl, rfl⟩

/-- C10: an `update_tracking` call on a tracker that was never started
returns the empty list and leaves the whole state — live subject map,
tracking history and advice history — exactly unchanged. -/
theorem C10_not_running_noop (t : ℚ) (frame_number : ℕ)
    (camera_position : Option Pos3) (detections : List Detection)
    (s : FilmingTracker) (h : s.running = false) :
    update_tracking t frame_number camera_position detections s = .ok ([], s) := by
  unfold update_tracking
  rw [h]
  simp

/-- Closed instance of the stopped-tracker no-op theorem. -/
theorem C10_witness :
    update_tracking 0 0 none [] stoppedTracker = .ok ([], stoppedTracker) :=
  C10_not_running_noop 0 0 none [] stoppedTracker rfl

/-- C4 (code-bug evidence): with the default `lost_timeout = 2`, a call at
time 10 with no detections makes the live subject transition to `lost` and be
evicted, yet the call generates no advisory at all — `_generate_tracking_advice`
is only ever fed just-updated subjects (whose status is `tracking`) and is
skipped entirely when `updated_subjects` is empty, so its `movement`/`high`
branch cannot fire for a subject that is transitioning to lost. -/
theorem C4_lost_transition_generates_no_advisory :
    update_tracking 10 1 none [] fixtureTracker = .ok ([], fixtureTrackerAfterLost) ∧
    (fixtureTrackerAfterLost.arena.getD 0 defaultSubject).tracking_status = "lost" ∧
    fixtureTrackerAfterLost.advice_history = [] := by
  refine ⟨?_, rfl, rfl⟩
  norm_num [update_tracking, runDetections, lostSweep, lostStep, fixtureTracker,
    fixtureSubject, fixtureTrackerAfterLost, defaultSubject, List.foldl]

/-- The filming waypoint, when it is produced at all, carries the fixed
per-subject description. -/
theorem filmWp_description (advice : Option FilmingAdviceDict) (i : ℕ) (subj : Pos)
    (w : CivilianWaypoint) (h : filmWp advice i subj = .ok w) :
    w.description = "Film subject " ++ toString (i + 1) := by
  unfold filmWp at h
  cases advice with
  | none =>
    simp only [] at h
    cases h
    rfl
  | some a =>
    simp only [] at h
    split at h
    · cases h
    · cases h
      rfl

/-- Descriptions of the waypoints appended for one subject: approach, film,
and an orbit exactly when there are multiple subjects or the operation type is
"advertisement". -/
theorem filmSubjectWps_descriptions (advice : Option FilmingAdviceDict) (nsubj : ℕ)
    (operation_type : String) (prev : CivilianWaypoint) (i : ℕ) (subj : Pos)
    (ws : List CivilianWaypoint)
    (h : filmSubjectWps advice nsubj operation_type prev i subj = .ok ws) :
    ws.map CivilianWaypoint.description =
      ["Approach subject " ++ toString (i + 1), "Film subject " ++ toString (i + 1)] ++
        (if 1 < nsubj ∨ operation_type = "advertisement" then
          ["Orbit around subject " ++ toString (i + 1)] else []) := by
  unfold filmSubjectWps at h
  cases hfw : filmWp advice i subj with
  | error e =>
    simp [hfw] at h
  | ok fw =>
    simp only [hfw] at h
    have hdesc := filmWp_description advice i subj fw hfw
    by_cases hcond : 1 < nsubj ∨ operation_type = "advertisement"
    · rw [if_pos hcond] at h
      rw [if_pos hcond]
      cases h
      simp [approachWp, orbitWp, hdesc]
    · rw [if_neg hcond] at h
      rw [if_neg hcond]
      cases h
      simp [approachWp, hdesc]

/-- Descriptions produced by the whole subject loop, for any starting index. -/
theorem filmLoop_descriptions (advice : Option FilmingAdviceDict) (nsubj : ℕ)
    (operation_type : String) (l : List Pos) :
    ∀ (i : ℕ) (prev : CivilianWaypoint) (ws : List CivilianWaypoint),
    filmLoop advice nsubj operation_type i prev l = .ok ws →
    ws.map CivilianWaypoint.description =
      (List.range' i l.length).flatMap (fun k =>
        ["Approach subject " ++ toString (k + 1), "Film subject " ++ toString (k + 1)] ++
          (if 1 < nsubj ∨ operation_type = "advertisement" then
            ["Orbit around subject " ++ toString (k + 1)] else [])) := by
  induction l with
  | nil =>
    intro i prev ws h
    unfold filmLoop at h
    cases h
    rfl
  | cons subj rest ih =>
    intro i prev ws h
    unfold filmLoop at h
    cases h1 : filmSubjectWps advice nsubj operation_type prev i subj with
    | error e =>
      simp [h1] at h
    | ok ws1 =>
      simp only [h1] at h
      try simp only [List.getLastD_eq_getLast?] at h
      cases h2 : filmLoop advice nsubj operation_type (i + 1) (ws1.getLast?.getD prev) rest with
      | error e =>
        simp [h2] at h
      | ok rest' =>
        simp only [h2] at h
        cases h
        rw [List.length_cons, List.range'_succ, List.flatMap_cons, List.map_append,
          filmSubjectWps_descriptions advice nsubj operation_type prev i subj ws1 h1,
          ih (i + 1) (ws1.getLast?.getD prev) rest' h2]

/-- Waypoint descriptions of any successfully planned filming route. -/
theorem plan_filming_route_descriptions (t : ℕ) (start_pos : Pos)
    (subjects : List Pos) (operation_type : String)
    (advice : Option FilmingAdviceDict) (plan : RoutePlan)
    (hok : plan_filming_route t start_pos subjects operation_type advice = .ok plan) :
    plan.waypoints.map CivilianWaypoint.description =
      "Starting position - prepare for filming" ::
        (List.range' 0 subjects.length).flatMap (fun k =>
          ["Approach subject " ++ toString (k + 1), "Film subject " ++ toString (k + 1)] ++
            (if 1 < subjects.length ∨ operation_type = "advertisement" then
              ["Orbit around subject " ++ toString (k + 1)] else [])) := by
  unfold plan_filming_route at hok
  cases hl : filmLoop advice subjects.length operation_type 0
      (filmStartWp advice start_pos) subjects with
  | error e => simp [hl] at hok
  | ok ws =>
    simp only [hl] at hok
    cases hok
    have hd := filmLoop_descriptions advice subjects.length operation_type
      subjects 0 (filmStartWp advice start_pos) ws hl
    rw [List.map_cons, hd]
    rfl

/-- C6: with exactly one subject position and an operation type other than
"advertisement", `plan_filming_route` yields exactly 3 waypoints (start,
approach, film) and no orbit waypoint; with two or more subject positions it
emits an orbit waypoint immediately after each subject's film waypoint. -/
theorem C6_filming_route_orbit_rule :
    (∀ (t : ℕ) (start_pos subj : Pos) (operation_type : String)
        (advice : Option FilmingAdviceDict) (plan : RoutePlan),
        operation_type ≠ "advertisement" →
        plan_filming_route t start_pos [subj] operation_type advice = .ok plan →
        plan.waypoints.map CivilianWaypoint.description =
          ["Starting position - prepare for filming", "Approach subject 1",
            "Film subject 1"] ∧ plan.waypoints.length = 3) ∧
    (∀ (t : ℕ) (start_pos : Pos) (subjects : List Pos) (operation_type : String)
        (advice : Option FilmingAdviceDict) (plan : RoutePlan),
        2 ≤ subjects.length →
        plan_filming_route t start_pos subjects operation_type advice = .ok plan →
        plan.waypoints.map CivilianWaypoint.description =
          "Starting position - prepare for filming" ::
            (List.range subjects.length).flatMap (fun k =>
              ["Approach subject " ++ toString (k + 1), "Film subject " ++ toString (k + 1),
                "Orbit around subject " ++ toString (k + 1)])) := by
  constructor
  · intro t start_pos subj operation_type advice plan hop hok
    have hmap0 := plan_filming_route_descriptions t start_pos [subj] operation_type
      advice plan hok
    have hmap : plan.waypoints.map CivilianWaypoint.description =
        ["Starting position - prepare for filming", "Approach subject 1",
          "Film subject 1"] := by
      rw [hmap0]
      simp [hop]
      try decide
    refine ⟨hmap, ?_⟩
    have hlen := congrArg List.length hmap
    simpa using hlen
  · intro t start_pos subjects operation_type advice plan hn hok
    have hmap0 := plan_filming_route_descriptions t start_pos subjects operation_type
      advice plan hok
    have hcond : 1 < subjects.length ∨ operation_type = "advertisement" :=
      Or.inl (by omega)
    rw [hmap0]
    simp [hcond, List.range_eq_range']

/-- Closed instance of the filming orbit rule at one and at two subjects. -/
theorem C6_witness :
    c6PlanOne.waypoints.map CivilianWaypoint.description =
      ["Starting position - prepare for filming", "Approach subject 1",
        "Film subject 1"] ∧
    c6PlanOne.waypoints.length = 3 ∧
    c6PlanTwo.waypoints.map CivilianWaypoint.description =
      ["Starting position - prepare for filming", "Approach subject 1",
        "Film subject 1", "Orbit around subject 1", "Approach subject 2",
        "Film subject 2", "Orbit around subject 2"] := by
  have hok1 : plan_filming_route 0 ⟨0, 0⟩ [⟨0, 0⟩] "wedding" none = .ok c6PlanOne := rfl
  have hok2 : plan_filming_route 0 ⟨0, 0⟩ [⟨0, 0⟩, ⟨1, 1⟩] "wedding" none =
      .ok c6PlanTwo := rfl
  have h1 := C6_filming_route_orbit_rule.1 0 ⟨0, 0⟩ ⟨0, 0⟩ "wedding" none c6PlanOne
    (by decide) hok1
  have h2 := C6_filming_route_orbit_rule.2 0 ⟨0, 0⟩ [⟨0, 0⟩, ⟨1, 1⟩] "wedding" none
    c6PlanTwo (by decide) hok2
  refine ⟨h1.1, h1.2, ?_⟩
  rw [h2]
  decide

/-- A successful `List.lookup` returns a member of the association list. -/
theorem lookup_mem {l : List (String × ℕ)} {k : String} {v : ℕ}
    (h : l.lookup k = some v) : (k, v) ∈ l := by
  induction l with
  | nil => simp [List.lookup] at h
  | cons p rest ih =>
    obtain ⟨p1, p2⟩ := p
    rw [List.lookup_cons] at h
    by_cases hk : k == p1
    · have hk' : k = p1 := by simpa using hk
      simp [hk] at h
      subst hk'
      subst h
      exact List.mem_cons_self _ _
    · simp [hk] at h
      exact List.mem_cons_of_mem _ (ih h)

/-- A failed `List.lookup` means the key owns no entry. -/
theorem lookup_none_not_key {l : List (String × ℕ)} {k : String}
    (h : l.lookup k = none) : ∀ p ∈ l, p.1 ≠ k := by
  have h' : ∀ a b, (a, b) ∈ l → ¬k = a := by simpa using h
  intro p hp he
  exact h' p.1 p.2 (by simpa using hp) he.symm

/-- Processing one detection whose explicit id differs from `sid` leaves the
entry `(sid, idx)` of the live dict, the dict-key invariants, and the heap
cell at `idx` untouched, and only extends the history. -/
theorem detStep_untouched (t : ℚ) (f : ℕ) (cam : Option Pos3) (s : FilmingTracker)
    (d : Detection) (s1 : FilmingTracker) (j : ℕ) (sid : String) (idx : ℕ)
    (h : detStep t f cam s d = .ok (s1, j))
    (hd : ∃ x, d.subject_id = some x ∧ x ≠ sid ∧ x ≠ "")
    (hmem : (sid, idx) ∈ s.tracked_subjects)
    (hnodup : (s.tracked_subjects.map Prod.fst).Nodup)
    (hinj : ∀ p ∈ s.tracked_subjects, p.2 = idx → p.1 = sid)
    (hlen : idx < s.arena.length) :
    (sid, idx) ∈ s1.tracked_subjects ∧
    (s1.tracked_subjects.map Prod.fst).Nodup ∧
    (∀ p ∈ s1.tracked_subjects, p.2 = idx → p.1 = sid) ∧
    idx < s1.arena.length ∧
    s1.arena.getD idx defaultSubject = s.arena.getD idx defaultSubject ∧
    s1.lost_timeout = s.lost_timeout ∧
    (∀ m ∈ s.tracking_history, m ∈ s1.tracking_history) := by
  obtain ⟨x, hx, hxs, hxe⟩ := hd
  have hres : resolveSubjectId d s.tracked_subjects = x := by
    simp [resolveSubjectId, hx, hxe]
  simp only [detStep, hres] at h
  cases hq : calculate_framing_quality d with
  | error e =>
    simp [hq] at h
  | ok q =>
    simp only [hq] at h
    cases hlk : s.tracked_subjects.lookup x with
    | some j0 =>
      simp only [hlk] at h
      cases h
      have hjne : j ≠ idx := by
        intro he
        exact hxs (hinj (x, j) (lookup_mem hlk) he)
      refine ⟨hmem, hnodup, hinj, by simpa using hlen, ?_, rfl, ?_⟩
      · simp [List.getD_eq_getElem?_getD, List.getElem?_set_ne hjne]
      · intro m hm
        exact List.mem_append_left _ hm
    | none =>
      simp only [hlk] at h
      cases h
      have hnk : ∀ p ∈ s.tracked_subjects, p.1 ≠ x := lookup_none_not_key hlk
      refine ⟨List.mem_append_left _ hmem, ?_, ?_, ?_, ?_, rfl, ?_⟩
      · rw [List.map_append]
        simp only [List.map_cons, List.map_nil]
        rw [List.nodup_append]
        refine ⟨hnodup, List.nodup_singleton x, ?_⟩
        intro a ha hb
        have : a = x := by simpa using hb
        subst this
        obtain ⟨p, hp, hpe⟩ := List.mem_map.mp ha
        exact hnk p hp hpe
      · intro p hp hpidx
        rcases List.mem_append.mp hp with h1 | h2
        · exact hinj p h1 hpidx
        · have : p = (x, s.arena.length) := by simpa using h2
          subst this
          simp at hpidx
          omega
      · simp only [List.length_append, List.length_cons, List.length_nil]
        omega
      · simp [List.getD_eq_getElem?_getD, List.getElem?_append_left hlen]
      · intro m hm
        exact List.mem_append_left _ hm

/-- The whole detection loop preserves the same invariants as long as no
detection carries the id `sid`. -/
theorem runDetections_untouched (t : ℚ) (f : ℕ) (cam : Option Pos3)
    (sid : String) (idx : ℕ) :
    ∀ (dets : List Detection) (s : FilmingTracker) (upd : List ℕ)
      (s1 : FilmingTracker) (upd1 : List ℕ),
    runDetections t f cam dets s upd = .ok (s1, upd1) →
    (∀ d ∈ dets, ∃ x, d.subject_id = some x ∧ x ≠ sid ∧ x ≠ "") →
    (sid, idx) ∈ s.tracked_subjects →
    (s.tracked_subjects.map Prod.fst).Nodup →
    (∀ p ∈ s.tracked_subjects, p.2 = idx → p.1 = sid) →
    idx < s.arena.length →
    ((sid, idx) ∈ s1.tracked_subjects ∧
     (s1.tracked_subjects.map Prod.fst).Nodup ∧
     (∀ p ∈ s1.tracked_subjects, p.2 = idx → p.1 = sid) ∧
     idx < s1.arena.length ∧
     s1.arena.getD idx defaultSubject = s.arena.getD idx defaultSubject ∧
     s1.lost_timeout = s.lost_timeout ∧
     (∀ m ∈ s.tracking_history, m ∈ s1.tracking_history)) := by
  intro dets
  induction dets with
  | nil =>
    intro s upd s1 upd1 h _ hmem hnodup hinj hlen
    unfold runDetections at h
    cases h
    exact ⟨hmem, hnodup, hinj, hlen, rfl, rfl, fun m hm => hm⟩
  | cons d rest ih =>
    intro s upd s1 upd1 h hdets hmem hnodup hinj hlen
    unfold runDetections at h
    cases hstep : detStep t f cam s d with
    | error e => simp [hstep] at h
    | ok r =>
      obtain ⟨sA, jA⟩ := r
      simp only [hstep] at h
      obtain ⟨m1, m2, m3, m4, m5, m6, m7⟩ :=
        detStep_untouched t f cam s d sA jA sid idx hstep
          (hdets d (List.mem_cons_self d rest)) hmem hnodup hinj hlen
      obtain ⟨n1, n2, n3, n4, n5, n6, n7⟩ :=
        ih sA (upd ++ [jA]) s1 upd1 h
          (fun d' hd' => hdets d' (List.mem_cons_of_mem d hd')) m1 m2 m3 m4
      refine ⟨n1, n2, n3, n4, ?_, ?_, ?_⟩
      · rw [n5, m5]
      · rw [n6, m6]
      · intro m hm
        exact n7 m (m7 m hm)

/-- One pass of the lost-track fold over entries whose index is not `idx`
leaves the heap cell at `idx` and the heap length unchanged and can only
remove live-dict entries. -/
theorem lostFold_untouched (t lt : ℚ) (idx : ℕ) :
    ∀ (l : List (String × ℕ)) (ar : List TrackedSubject) (tr : List (String × ℕ)),
    (∀ p ∈ l, p.2 ≠ idx) →
    ((List.foldl (lostStep t lt) (ar, tr) l).1.getD idx defaultSubject =
       ar.getD idx defaultSubject ∧
     (List.foldl (lostStep t lt) (ar, tr) l).1.length = ar.length ∧
     (∀ q ∈ (List.foldl (lostStep t lt) (ar, tr) l).2, q ∈ tr)) := by
  intro l
  induction l with
  | nil =>
    intro ar tr _
    exact ⟨rfl, rfl, fun q hq => hq⟩
  | cons p rest ih =>
    intro ar tr hne
    rw [List.foldl_cons]
    have hpne : p.2 ≠ idx := hne p (List.mem_cons_self p rest)
    have hrest : ∀ q ∈ rest, q.2 ≠ idx :=
      fun q hq => hne q (List.mem_cons_of_mem p hq)
    unfold lostStep
    by_cases hc : lt < t - (ar.getD p.2 defaultSubject).timestamp
    · rw [if_pos hc]
      refine ⟨?_, ?_, ?_⟩
      · exact (ih _ _ hrest).1.trans
          (by simp [List.getD_eq_getElem?_getD, List.getElem?_set_ne hpne])
      · exact (ih _ _ hrest).2.1.trans (by simp)
      · intro q hq
        exact List.mem_of_mem_filter ((ih _ _ hrest).2.2 q hq)
    · rw [if_neg hc]
      exact ih ar tr hrest

/-- The lost-track sweep marks a stale subject `lost` in the heap and removes
every live-dict entry carrying its id. -/
theorem lostSweep_evicts (t : ℚ) (s1 : FilmingTracker) (sid : String) (idx : ℕ)
    (hmem : (sid, idx) ∈ s1.tracked_subjects)
    (hnodup : (s1.tracked_subjects.map Prod.fst).Nodup)
    (hinj : ∀ p ∈ s1.tracked_subjects, p.2 = idx → p.1 = sid)
    (hlen : idx < s1.arena.length)
    (htime : s1.lost_timeout < t - (s1.arena.getD idx defaultSubject).timestamp) :
    (lostSweep t s1).arena.getD idx defaultSubject =
      { s1.arena.getD idx defaultSubject with tracking_status := "lost" } ∧
    (∀ p ∈ (lostSweep t s1).tracked_subjects, p.1 ≠ sid) := by
  obtain ⟨L1, L2, hLsplit⟩ := List.append_of_mem hmem
  have hnd := hnodup
  rw [hLsplit, List.map_append, List.map_cons, List.nodup_append] at hnd
  obtain ⟨hndL1, hndcons, hdisj⟩ := hnd
  have hsidL1 : sid ∉ L1.map Prod.fst := fun hc =>
    hdisj hc (List.mem_cons_self _ _)
  have hsidL2 : sid ∉ L2.map Prod.fst := (List.nodup_cons.mp hndcons).1
  have hL1 : ∀ p ∈ L1, p.2 ≠ idx := by
    intro p hp he
    have hpk := hinj p (by rw [hLsplit]; exact List.mem_append_left _ hp) he
    exact hsidL1 (List.mem_map.mpr ⟨p, hp, hpk⟩)
  have hL2 : ∀ p ∈ L2, p.2 ≠ idx := by
    intro p hp he
    have hpk := hinj p
      (by rw [hLsplit]
          exact List.mem_append_right _ (List.mem_cons_of_mem _ hp)) he
    exact hsidL2 (List.mem_map.mpr ⟨p, hp, hpk⟩)
  unfold lostSweep
  dsimp only
  rw [hLsplit, List.foldl_append, List.foldl_cons]
  obtain ⟨p1, p2, _⟩ := lostFold_untouched t s1.lost_timeout idx L1 s1.arena
    (L1 ++ (sid, idx) :: L2) hL1
  generalize hacc : List.foldl (lostStep t s1.lost_timeout)
    (s1.arena, L1 ++ (sid, idx) :: L2) L1 = acc1
  rw [hacc] at p1 p2
  have hcond : s1.lost_timeout <
      t - ((acc1.1.getD idx defaultSubject)).timestamp := by
    rw [p1]
    exact htime
  have hmid : lostStep t s1.lost_timeout acc1 (sid, idx) =
      (acc1.1.set idx
        { acc1.1.getD idx defaultSubject with tracking_status := "lost" },
       acc1.2.filter (fun q => q.1 != sid)) := by
    unfold lostStep
    dsimp only
    rw [if_pos hcond]
  rw [hmid]
  obtain ⟨q1, q2, q3⟩ := lostFold_untouched t s1.lost_timeout idx L2
    (acc1.1.set idx
      { acc1.1.getD idx defaultSubject with tracking_status := "lost" })
    (acc1.2.filter (fun q => q.1 != sid)) hL2
  constructor
  · rw [q1]
    have hidx1 : idx < acc1.1.length := by
      rw [p2]
      exact hlen
    rw [← p1]
    simp [List.getD_eq_getElem?_getD, List.getElem?_set_self hidx1]
  · intro p hp
    have hp2 := q3 p hp
    have := List.mem_filter.mp hp2
    simpa using this.2

/-- C5: when a live subject's detections are all for other ids and more than
`lost_timeout` has elapsed since its stored timestamp, the `update_tracking`
call marks its heap object `lost`, removes its id from the live subject map,
and its (shared, mutated) history entry shows status `lost`. -/
theorem C5_lost_transition_invariant (t : ℚ) (frame_number : ℕ)
    (camera_position : Option Pos3) (detections : List Detection)
    (s : FilmingTracker) (sid : String) (idx : ℕ)
    (subs : List TrackedSubject) (s' : FilmingTracker)
    (hrun : s.running = true)
    (hmem : (sid, idx) ∈ s.tracked_subjects)
    (hnodup : (s.tracked_subjects.map Prod.fst).Nodup)
    (hinj : ∀ p ∈ s.tracked_subjects, p.2 = idx → p.1 = sid)
    (hlen : idx < s.arena.length)
    (hsid : (s.arena.getD idx defaultSubject).subject_id = sid)
    (hhist : idx ∈ s.tracking_history)
    (hdet : ∀ d ∈ detections, ∃ x, d.subject_id = some x ∧ x ≠ sid ∧ x ≠ "")
    (htime : s.lost_timeout < t - (s.arena.getD idx defaultSubject).timestamp)
    (hok : update_tracking t frame_number camera_position detections s =
      .ok (subs, s')) :
    (s'.arena.getD idx defaultSubject).tracking_status = "lost" ∧
    (s'.arena.getD idx defaultSubject).subject_id = sid ∧
    (∀ p ∈ s'.tracked_subjects, p.1 ≠ sid) ∧
    idx ∈ s'.tracking_history := by
  unfold update_tracking at hok
  rw [if_neg (by simp [hrun])] at hok
  cases hrd : runDetections t frame_number camera_position detections s [] with
  | error e => simp [hrd] at hok
  | ok r =>
    obtain ⟨s1, upd⟩ := r
    simp only [hrd] at hok
    obtain ⟨m1, m2, m3, m4, m5, m6, m7⟩ := runDetections_untouched t frame_number
      camera_position sid idx detections s [] s1 upd hrd hdet hmem hnodup hinj hlen
    have htime1 : s1.lost_timeout <
        t - (s1.arena.getD idx defaultSubject).timestamp := by
      rw [m5, m6]
      exact htime
    obtain ⟨e1, e2⟩ := lostSweep_evicts t s1 sid idx m1 m2 m3 m4 htime1
    have hmain : ((lostSweep t s1).arena.getD idx defaultSubject).tracking_status =
          "lost" ∧
        ((lostSweep t s1).arena.getD idx defaultSubject).subject_id = sid ∧
        (∀ p ∈ (lostSweep t s1).tracked_subjects, p.1 ≠ sid) ∧
        idx ∈ (lostSweep t s1).tracking_history := by
      refine ⟨?_, ?_, e2, ?_⟩
      · rw [e1]
      · rw [e1]
        show (s1.arena.getD idx defaultSubject).subject_id = sid
        rw [m5]
        exact hsid
      · exact m7 idx hhist
    cases hok
    split
    · exact hmain
    · split
      · exact hmain
      · exact hmain

/-- Closed instance of the lost-transition invariant at the concrete fixture. -/
theorem C5_witness :
    (fixtureTrackerAfterLost.arena.getD 0 defaultSubject).tracking_status = "lost" ∧
    (fixtureTrackerAfterLost.arena.getD 0 defaultSubject).subject_id = "A" ∧
    fixtureTrackerAfterLost.tracked_subjects.Forall (fun p => p.1 ≠ "A") ∧
    0 ∈ fixtureTrackerAfterLost.tracking_history := by
  have h := C5_lost_transition_invariant 10 1 none [] fixtureTracker "A" 0 []
    fixtureTrackerAfterLost rfl (by decide) (by decide) (by decide) (by decide) rfl
    (by decide) (by simp) (by norm_num [fixtureTracker, fixtureSubject])
    (by norm_num [update_tracking, runDetections, lostSweep, lostStep, fixtureTracker,
      fixtureSubject, fixtureTrackerAfterLost, defaultSubject, List.foldl])
  exact ⟨h.1, h.2.1, List.forall_iff_forall_mem.mpr h.2.2.1, h.2.2.2⟩

/-- `getD` after `set` at a different index. -/
theorem getD_set_ne (l : List TrackedSubject) (n i : ℕ) (v : TrackedSubject)
    (h : n ≠ i) : (l.set n v).getD i defaultSubject = l.getD i defaultSubject := by
  simp [List.getD_eq_getElem?_getD, List.getElem?_set_ne h]

/-- `getD` after `set` at the same in-range index. -/
theorem getD_set_self (l : List TrackedSubject) (n : ℕ) (v : TrackedSubject)
    (h : n < l.length) : (l.set n v).getD n defaultSubject = v := by
  simp [List.getD_eq_getElem?_getD, List.getElem?_set_self h]

/-- `getD` of a one-element extension below the old length. -/
theorem getD_append_lt (l : List TrackedSubject) (x : TrackedSubject) (i : ℕ)
    (h : i < l.length) : (l ++ [x]).getD i defaultSubject = l.getD i defaultSubject := by
  simp [List.getD_eq_getElem?_getD, List.getElem?_append_left h]

/-- `getD` of a one-element extension at the old length. -/
theorem getD_append_self (l : List TrackedSubject) (x : TrackedSubject) :
    (l ++ [x]).getD l.length defaultSubject = x := by
  simp [List.getD_eq_getElem?_getD]

/-- An out-of-range `getD` yields the placeholder. -/
theorem getD_out (l : List TrackedSubject) (i : ℕ) (h : l.length ≤ i) :
    l.getD i defaultSubject = defaultSubject := by
  simp [List.getD_eq_getElem?_getD, List.getElem?_eq_none h]

/-- Shape of a 4-element coordinate list. -/
theorem exists_four (l : List ℚ) (h : l.length = 4) :
    ∃ a b c d, l = [a, b, c, d] := by
  rcases l with _ | ⟨a, l⟩
  · simp at h
  rcases l with _ | ⟨b, l⟩
  · simp at h
  rcases l with _ | ⟨c, l⟩
  · simp at h
  rcases l with _ | ⟨d, l⟩
  · simp at h
  rcases l with _ | ⟨e, l⟩
  · exact ⟨a, b, c, d, rfl⟩
  · simp at h

/-- Every value that `_calculate_framing_quality` actually returns lies in
`[0, 1]`: the computed blend is clamped and the short-bbox default is 0.5. -/
theorem calculate_framing_quality_ok_bounds (d : Detection) (q : ℚ)
    (h : calculate_framing_quality d = .ok q) : 0 ≤ q ∧ q ≤ 1 := by
  simp only [calculate_framing_quality] at h
  split at h
  · cases h
    norm_num
  · split at h
    · cases h
      constructor
      · exact le_min (by norm_num) (le_max_left _ _)
      · exact min_le_left _ _
    · cases h

/-- One detection step keeps every heap framing quality inside `[0, 1]` and
writes a bounded quality at the index it reports. -/
theorem detStep_quality (t : ℚ) (f : ℕ) (cam : Option Pos3) (s : FilmingTracker)
    (d : Detection) (s1 : FilmingTracker) (j : ℕ)
    (h : detStep t f cam s d = .ok (s1, j)) :
    (∀ i, (0 ≤ (s.arena.getD i defaultSubject).framing_quality ∧
           (s.arena.getD i defaultSubject).framing_quality ≤ 1) →
          (0 ≤ (s1.arena.getD i defaultSubject).framing_quality ∧
           (s1.arena.getD i defaultSubject).framing_quality ≤ 1)) ∧
    (0 ≤ (s1.arena.getD j defaultSubject).framing_quality ∧
     (s1.arena.getD j defaultSubject).framing_quality ≤ 1) := by
  simp only [detStep] at h
  cases hq : calculate_framing_quality d with
  | error e => simp [hq] at h
  | ok q =>
    simp only [hq] at h
    have hqb := calculate_framing_quality_ok_bounds d q hq
    cases hlk : s.tracked_subjects.lookup (resolveSubjectId d s.tracked_subjects) with
    | some j0 =>
      simp only [hlk] at h
      cases h
      dsimp only
      constructor
      · intro i hi
        by_cases hij : j = i
        · subst hij
          by_cases hjl : j < s.arena.length
          · rw [getD_set_self _ _ _ hjl]
            exact hqb
          · rw [List.set_eq_of_length_le (by omega)]
            exact hi
        · rw [getD_set_ne _ _ _ _ hij]
          exact hi
      · by_cases hjl : j < s.arena.length
        · rw [getD_set_self _ _ _ hjl]
          exact hqb
        · rw [List.set_eq_of_length_le (by omega), getD_out _ _ (by omega)]
          constructor <;> norm_num [defaultSubject]
    | none =>
      simp only [hlk] at h
      cases h
      dsimp only
      constructor
      · intro i hi
        rcases lt_trichotomy i s.arena.length with hlt | heq | hgt
        · rw [getD_append_lt _ _ _ hlt]
          exact hi
        · subst heq
          rw [getD_append_self]
          exact hqb
        · rw [getD_out _ _ (by simp; omega)]
          constructor <;> norm_num [defaultSubject]
      · rw [getD_append_self]
        exact hqb

/-- The detection loop only appends indices whose heap quality is bounded. -/
theorem runDetections_quality (t : ℚ) (f : ℕ) (cam : Option Pos3) :
    ∀ (dets : List Detection) (s : FilmingTracker) (upd : List ℕ)
      (s1 : FilmingTracker) (upd1 : List ℕ),
    runDetections t f cam dets s upd = .ok (s1, upd1) →
    (∀ i ∈ upd, 0 ≤ (s.arena.getD i defaultSubject).framing_quality ∧
      (s.arena.getD i defaultSubject).framing_quality ≤ 1) →
    (∀ i ∈ upd1, 0 ≤ (s1.arena.getD i defaultSubject).framing_quality ∧
      (s1.arena.getD i defaultSubject).framing_quality ≤ 1) := by
  intro dets
  induction dets with
  | nil =>
    intro s upd s1 upd1 h hq
    unfold runDetections at h
    cases h
    exact hq
  | cons d rest ih =>
    intro s upd s1 upd1 h hq
    unfold runDetections at h
    cases hstep : detStep t f cam s d with
    | error e => simp [hstep] at h
    | ok r =>
      obtain ⟨sA, jA⟩ := r
      simp only [hstep] at h
      obtain ⟨pres, new⟩ := detStep_quality t f cam s d sA jA hstep
      refine ih sA (upd ++ [jA]) s1 upd1 h ?_
      intro i hi
      rcases List.mem_append.mp hi with h1 | h2
      · exact pres i (hq i h1)
      · have : i = jA := by simpa using h2
        subst this
        exact new

/-- A lost-sweep step never changes any stored framing quality. -/
theorem lostStep_quality (t lt : ℚ) (acc : List TrackedSubject × List (String × ℕ))
    (p : String × ℕ) (i : ℕ) :
    ((lostStep t lt acc p).1.getD i defaultSubject).framing_quality =
      (acc.1.getD i defaultSubject).framing_quality := by
  unfold lostStep
  dsimp only
  split
  · by_cases hpi : p.2 = i
    · subst hpi
      by_cases hpl : p.2 < acc.1.length
      · rw [getD_set_self _ _ _ hpl]
      · rw [List.set_eq_of_length_le (by omega)]
    · rw [getD_set_ne _ _ _ _ hpi]
  · rfl

/-- The whole lost sweep never changes any stored framing quality. -/
theorem lostFold_quality (t lt : ℚ) :
    ∀ (l : List (String × ℕ)) (acc : List TrackedSubject × List (String × ℕ)) (i : ℕ),
    ((List.foldl (lostStep t lt) acc l).1.getD i defaultSubject).framing_quality =
      (acc.1.getD i defaultSubject).framing_quality := by
  intro l
  induction l with
  | nil => intro acc i; rfl
  | cons p rest ih =>
    intro acc i
    rw [List.foldl_cons, ih (lostStep t lt acc p) i, lostStep_quality]

/-- C9 counterexample: a detection whose bounding box has five coordinates
does not get a framing-quality value at all — `x1, y1, x2, y2 = bbox` raises
`ValueError` (only *fewer* than four coordinates are guarded). -/
theorem C9_counterexample_five_coordinates :
    calculate_framing_quality
      { subject_id := none, bbox := some [0, 0, 0, 0, 0], confidence := none } =
      .error "ValueError: too many values to unpack (expected 4)" := rfl

/-- C9 amended: for every detection whose bounding box (after the `[0,0,0,0]`
default) has at most four coordinates, the computed framing quality is a value
in `[0, 1]` — fewer than four yields the fixed 0.5, exactly four the clamped
blend — and every TrackedSubject returned by a completing `update_tracking`
call carries a framing quality in `[0, 1]`. -/
theorem C9_amended_framing_quality_bounds :
    (∀ d : Detection, (d.bbox.getD [0, 0, 0, 0]).length < 4 →
      calculate_framing_quality d = .ok 0.5) ∧
    (∀ d : Detection, (d.bbox.getD [0, 0, 0, 0]).length ≤ 4 →
      ∃ q, calculate_framing_quality d = .ok q ∧ 0 ≤ q ∧ q ≤ 1) ∧
    (∀ (t : ℚ) (frame_number : ℕ) (camera_position : Option Pos3)
        (detections : List Detection) (s : FilmingTracker)
        (subs : List TrackedSubject) (s' : FilmingTracker),
      update_tracking t frame_number camera_position detections s = .ok (subs, s') →
      subs.Forall (fun x => 0 ≤ x.framing_quality ∧ x.framing_quality ≤ 1)) := by
  have part1 : ∀ d : Detection, (d.bbox.getD [0, 0, 0, 0]).length < 4 →
      calculate_framing_quality d = .ok 0.5 := by
    intro d hlt
    simp only [calculate_framing_quality]
    rw [if_pos hlt]
  refine ⟨part1, ?_, ?_⟩
  · intro d hle
    by_cases hlt : (d.bbox.getD [0, 0, 0, 0]).length < 4
    · exact ⟨0.5, part1 d hlt, by norm_num, by norm_num⟩
    · have h4 : (d.bbox.getD [0, 0, 0, 0]).length = 4 := by omega
      obtain ⟨a, b, c, dd, hshape⟩ := exists_four _ h4
      cases hcalc : calculate_framing_quality d with
      | ok q =>
        obtain ⟨b1, b2⟩ := calculate_framing_quality_ok_bounds d q hcalc
        exact ⟨q, rfl, b1, b2⟩
      | error e =>
        exfalso
        simp only [calculate_framing_quality] at hcalc
        rw [hshape] at hcalc
        simp at hcalc
  · intro t frame_number camera_position detections s subs s' hok
    unfold update_tracking at hok
    by_cases hrun : s.running = false
    · rw [if_pos hrun] at hok
      cases hok
      trivial
    · rw [if_neg hrun] at hok
      cases hrd : runDetections t frame_number camera_position detections s [] with
      | error e => simp [hrd] at hok
      | ok r =>
        obtain ⟨s1, upd⟩ := r
        simp only [hrd] at hok
        have hq1 := runDetections_quality t frame_number camera_position detections
          s [] s1 upd hrd (by simp)
        have hq2 : ∀ i ∈ upd,
            0 ≤ ((lostSweep t s1).arena.getD i defaultSubject).framing_quality ∧
            ((lostSweep t s1).arena.getD i defaultSubject).framing_quality ≤ 1 := by
          intro i hi
          show 0 ≤ ((List.foldl (lostStep t s1.lost_timeout)
              (s1.arena, s1.tracked_subjects) s1.tracked_subjects).1.getD i
              defaultSubject).framing_quality ∧
            ((List.foldl (lostStep t s1.lost_timeout)
              (s1.arena, s1.tracked_subjects) s1.tracked_subjects).1.getD i
              defaultSubject).framing_quality ≤ 1
          rw [lostFold_quality t s1.lost_timeout s1.tracked_subjects
            (s1.arena, s1.tracked_subjects) i]
          exact hq1 i hi
        cases hok
        rw [List.forall_iff_forall_mem]
        intro x hx
        obtain ⟨i, hi, hxe⟩ := List.mem_map.mp hx
        subst hxe
        split
        · exact hq2 i hi
        · split
          · exact hq2 i hi
          · exact hq2 i hi

/-- Closed instance of the amended framing-quality claim: a short bbox, the
concrete centered detection, and a full tracking update. -/
theorem C9_witness :
    calculate_framing_quality
      { subject_id := none, bbox := some [1, 2], confidence := none } = .ok 0.5 ∧
    (∃ q, calculate_framing_quality c9Detection = .ok q ∧ 0 ≤ q ∧ q ≤ 1) ∧
    List.Forall (fun x => 0 ≤ x.framing_quality ∧ x.framing_quality ≤ 1)
      [c9Subject] := by
  have hok : update_tracking 1 0 none [c9Detection] fixtureTracker =
      .ok ([c9Subject], c9StateAfter) := by
    have hbeq : (("B" : String) == "A") = false := by decide
    norm_num +decide [hbeq, update_tracking, runDetections, detStep, resolveSubjectId,
      calculate_framing_quality, determine_camera_angle, lostSweep, lostStep,
      generate_tracking_advice, genAdviceFor, fixtureTracker, fixtureSubject,
      c9Detection, c9Subject, c9StateAfter, defaultSubject, List.foldl,
      List.lookup, max_def, min_def]
  exact ⟨C9_amended_framing_quality_bounds.1 _ (by decide),
    C9_amended_framing_quality_bounds.2.1 c9Detection (by decide),
    C9_amended_framing_quality_bounds.2.2 1 0 none [c9Detection] fixtureTracker
      [c9Subject] c9StateAfter hok⟩
